import Mathlib

/-!
# StacksRunner: the application shell of `public/src/main.js`

A shallow embedding of the `StackRunnerGame` class and of the two page-level
listeners (`DOMContentLoaded`, `visibilitychange`) of `main.js`.

Conventions of the embedding.

* A JavaScript value that may be `null`/`undefined` is an `Option`; the
  truthiness test `if (x)` / `x && ...` is the case split on the option.
* A property access on `null` raises a `TypeError`; methods therefore return
  `Except JsError _`, and a guarded method is one that is `.ok` on `none`.
* The rendering engine (Phaser) is a collaborator outside the repository.  Only
  the part of its scene manager that the shell talks to is modelled, with the
  behaviour the specification fixes for it.
* Every method returns, next to the new state, the list of state-changing
  requests it sent to the engine (`EngineCall`).  The boolean reads
  `isActive`, `isPaused` and the lookup `getScene` do not change the engine
  and are plain functions.
-/

namespace StacksRunner

/-! ## The engine, as far as the shell sees it -/

/-- Activity of the primary scene `'GameScene'` inside a live engine. -/
inductive SceneState where
  | NotStarted
  | Active
  | Paused
  deriving DecidableEq, Repr

/-- One `Phaser.Game` object: its identity (the number of engines constructed
before it), the state of its `'GameScene'`, and whether
`scene.getScene('GameScene')` currently resolves. -/
structure Engine where
  id : Nat
  scene : SceneState
  hasGameScene : Bool
  deriving DecidableEq, Repr

/-- State-changing requests sent to the engine. -/
inductive EngineCall where
  | construct (width height : Nat)
  | pause (key : String)
  | resume (key : String)
  | restart (key : String)
  | destroy (removeCanvas : Bool)
  deriving DecidableEq, Repr

/-- Exceptions a method of the shell can raise to its caller. -/
inductive JsError where
  | typeError (what : String)
  deriving DecidableEq, Repr

/-- The key of the primary gameplay scene, as written in every call site. -/
def gameSceneKey : String := "GameScene"

/-- Modelled from the spec: `game.scene.isActive('GameScene')` of the engine
library, which is true exactly when the scene is `Active`. -/
def SceneManager.isActive (g : Engine) : Bool :=
  decide (g.scene = SceneState.Active)

/-- Modelled from the spec: `game.scene.isPaused('GameScene')` of the engine
library, which is true exactly when the scene is `Paused`. -/
def SceneManager.isPaused (g : Engine) : Bool :=
  decide (g.scene = SceneState.Paused)

/-- Modelled from the spec: `game.scene.pause('GameScene')` of the engine
library, which moves the scene to `Paused`. -/
def SceneManager.pause (g : Engine) : Engine :=
  { g with scene := SceneState.Paused }

/-- Modelled from the spec: `game.scene.resume('GameScene')` of the engine
library, which moves the scene to `Active`. -/
def SceneManager.resume (g : Engine) : Engine :=
  { g with scene := SceneState.Active }

/-- Modelled from the spec: `game.scene.restart('GameScene')` of the engine
library, which resets the scene and re-enters `Active`. -/
def SceneManager.restart (g : Engine) : Engine :=
  { g with scene := SceneState.Active }

/-- Modelled from the spec: `game.scene.getScene('GameScene')` of the engine
library: the scene object when the key resolves, `null` otherwise.  The scene
object is represented by the identity of its engine. -/
def SceneManager.getScene (g : Engine) : Option Nat :=
  if g.hasGameScene then some g.id else none

/-! ## `class StackRunnerGame`: lifecycle methods (main.js 143-167) -/

/-- The instance state of `StackRunnerGame`: the field `this.game`. -/
structure StackRunnerGame where
  game : Option Engine
  deriving DecidableEq, Repr

/-- Result of a lifecycle method: the instance afterwards and the requests
sent to the engine, or the exception raised. -/
abbrev Outcome := Except JsError (StackRunnerGame × List EngineCall)

/-- `pauseGame()`, main.js 144-148. -/
def pauseGame (self : StackRunnerGame) : Outcome :=
  match self.game with
  | none => .ok (self, [])
  | some g =>
    if SceneManager.isActive g then
      .ok ({ game := some (SceneManager.pause g) }, [EngineCall.pause gameSceneKey])
    else
      .ok (self, [])

/-- `resumeGame()`, main.js 150-154. -/
def resumeGame (self : StackRunnerGame) : Outcome :=
  match self.game with
  | none => .ok (self, [])
  | some g =>
    if SceneManager.isPaused g then
      .ok ({ game := some (SceneManager.resume g) }, [EngineCall.resume gameSceneKey])
    else
      .ok (self, [])

/-- `restartGame()`, main.js 156-160. -/
def restartGame (self : StackRunnerGame) : Outcome :=
  match self.game with
  | none => .ok (self, [])
  | some g =>
    if SceneManager.isActive g then
      .ok ({ game := some (SceneManager.restart g) }, [EngineCall.restart gameSceneKey])
    else
      .ok (self, [])

/-- `destroy()`, main.js 162-167: `this.game.destroy(true); this.game = null`
under the guard `if (this.game)`. -/
def destroy (self : StackRunnerGame) : Outcome :=
  match self.game with
  | none => .ok (self, [])
  | some _ => .ok ({ game := none }, [EngineCall.destroy true])

/-- The four externally callable lifecycle methods. -/
inductive LifecycleOp where
  | pauseGame
  | resumeGame
  | restartGame
  | destroy
  deriving DecidableEq, Repr

/-- Calling one lifecycle method on the instance. -/
def LifecycleOp.call : LifecycleOp → StackRunnerGame → Outcome
  | .pauseGame => StacksRunner.pauseGame
  | .resumeGame => StacksRunner.resumeGame
  | .restartGame => StacksRunner.restartGame
  | .destroy => StacksRunner.destroy

/-- Calling a sequence of lifecycle methods one after the other; an exception
aborts the sequence. -/
def runOps : List LifecycleOp → StackRunnerGame → Outcome
  | [], s => .ok (s, [])
  | op :: rest, s =>
    match op.call s with
    | .error e => .error e
    | .ok (s1, t1) =>
      match runOps rest s1 with
      | .error e => .error e
      | .ok (s2, t2) => .ok (s2, t1 ++ t2)

/-- The instance state an outcome ends in (`none` when it raised). -/
def Outcome.state : Outcome → Option StackRunnerGame
  | .ok (s, _) => some s
  | .error _ => none

/-- The state of the primary scene as seen through the instance (`none` when
the handle is cleared). -/
def StackRunnerGame.sceneState (self : StackRunnerGame) : Option SceneState :=
  self.game.map Engine.scene

/-- The requests an outcome sent to the engine (none when it raised). -/
def Outcome.calls : Outcome → List EngineCall
  | .ok (_, t) => t
  | .error _ => []

/-- A call is a no-op at `s` when it returns normally, leaves the instance as
it was, and sends nothing to the engine. -/
def isNoOp (op : LifecycleOp) (s : StackRunnerGame) : Bool :=
  match op.call s with
  | .ok (s1, t) => decide (s1 = s ∧ t = [])
  | .error _ => false

/-- The instance after the call (unchanged if the call raised). -/
def stateAfter (op : LifecycleOp) (s : StackRunnerGame) : StackRunnerGame :=
  ((op.call s).state).getD s

/-- The sequence with every call deleted that is a no-op at the state in which
it is made. -/
def dropNoOps : List LifecycleOp → StackRunnerGame → List LifecycleOp
  | [], _ => []
  | op :: rest, s =>
    if isNoOp op s then dropNoOps rest s
    else op :: dropNoOps rest (stateAfter op s)

/-! ## The page around the shell -/

/-- One line written to the console. -/
inductive ConsoleEntry where
  | log (msg : String)
  | warn (msg : String)
  | error (msg : String)
  deriving DecidableEq, Repr

/-- An error banner created by `showErrorMessage`: the `div` element (by
creation number) and its `textContent`.  Its inline style is presentation only
and is not modelled. -/
structure Overlay where
  id : Nat
  textContent : String
  deriving DecidableEq, Repr

/-- A pending `setTimeout` that removes the overlay `target` after `delay` ms. -/
structure Timer where
  delay : Nat
  target : Nat
  deriving DecidableEq, Repr

/-- The three failure channels the shell listens on: the `'error'` event of one
engine's emitter (`game.events`), the window `'error'` event and the window
`'unhandledrejection'` event. -/
inductive Channel where
  | engineError (engine : Nat)
  | windowError
  | unhandledRejection
  deriving DecidableEq, Repr

/-- A registered listener: its channel, the label it logs with
`console.error`, and the text it passes to `showErrorMessage`. -/
structure Listener where
  channel : Channel
  label : String
  message : String
  deriving DecidableEq, Repr

/-- The collaborator `CONFIG`, of which `init` reads the canvas size. -/
structure Config where
  CANVAS_WIDTH : Nat
  CANVAS_HEIGHT : Nat
  deriving DecidableEq, Repr

/-- The host page: viewport, the globals the shell writes on `window`, the
registered listeners, the console, and the part of `document.body` the shell
touches. -/
structure Page where
  innerWidth : Nat
  innerHeight : Nat
  engines : Nat
  phaserGame : Option Nat
  stackRunner : Option StackRunnerGame
  debugHelpers : Bool
  listeners : List Listener
  console : List ConsoleEntry
  created : Nat
  body : List Overlay
  bodyHTML : Option String
  instructions : Option String
  timers : List Timer
  deriving DecidableEq, Repr

/-- A page on which no script of the shell has run yet. -/
def Page.blank (innerWidth innerHeight : Nat) (instructions : Option String) : Page :=
  { innerWidth := innerWidth, innerHeight := innerHeight, engines := 0,
    phaserGame := none, stackRunner := none, debugHelpers := false,
    listeners := [], console := [], created := 0, body := [],
    bodyHTML := none, instructions := instructions, timers := [] }

/-- Modelled from the spec: the engine object `new Phaser.Game(config)` returns.
Its scenes are registered and `'GameScene'` has not been started. -/
def Engine.fresh (id : Nat) : Engine :=
  { id := id, scene := SceneState.NotStarted, hasGameScene := true }

/-! ## Error interception (main.js 67-85, 116-141) -/

/-- `showErrorMessage(message)`, main.js 116-141: create a `div`, set its text,
append it to `document.body`, and schedule its removal after 5000 ms. -/
def showErrorMessage (message : String) (p : Page) : Page :=
  { p with
    created := p.created + 1
    body := p.body ++ [{ id := p.created, textContent := message }]
    timers := p.timers ++ [{ delay := 5000, target := p.created }] }

/-- The three listeners `setupErrorHandling` registers for the engine with
identity `engine`, main.js 69-84. -/
def errorListeners (engine : Nat) : List Listener :=
  [ { channel := Channel.engineError engine, label := "Phaser error:",
      message := "Game error occurred. Please refresh the page." },
    { channel := Channel.windowError, label := "Global error:",
      message := "An error occurred. Please refresh the page." },
    { channel := Channel.unhandledRejection, label := "Unhandled promise rejection:",
      message := "Connection error. Please check your network." } ]

/-- `setupErrorHandling()`, main.js 67-85.  `this.game.events` is read without
a guard. -/
def setupErrorHandling (self : StackRunnerGame) (p : Page) : Except JsError Page :=
  match self.game with
  | none => .error (JsError.typeError "Cannot read properties of null (reading 'events')")
  | some g => .ok { p with listeners := p.listeners ++ errorListeners g.id }

/-- The body of one registered listener: `console.error(label, ...)` followed
by `this.showErrorMessage(message)`. -/
def Listener.handle (l : Listener) (p : Page) : Page :=
  showErrorMessage l.message { p with console := p.console ++ [ConsoleEntry.error l.label] }

/-- One event on channel `ch`: every listener registered for `ch` runs, in
registration order. -/
def fire (ch : Channel) (p : Page) : Page :=
  (p.listeners.filter (fun l => decide (l.channel = ch))).foldl (fun q l => l.handle q) p

/-! ## Debug commands (main.js 87-114) -/

/-- The call a debug command forwards to the gameplay scene. -/
inductive DebugForward where
  | debugShowVictory (scenario : String)
  | debugShowGameOver (scenario : String)
  deriving DecidableEq, Repr

/-- What a debug command did: the forwarded call, if any, and its console
output; or the exception it raised. -/
abbrev DebugOutcome := Except JsError (Option DebugForward × List ConsoleEntry)

/-- The default parameter `scenario = 'player'`: the default is taken exactly
when the argument is omitted (`undefined`). -/
def scenarioOrDefault (arg : Option String) : String :=
  match arg with
  | none => "player"
  | some s => s

/-- `window.debugVictory`, main.js 89-96, on the instance it closes over. -/
def debugVictory (self : StackRunnerGame) (arg : Option String) : DebugOutcome :=
  let scenario := scenarioOrDefault arg
  match self.game with
  | none => .error (JsError.typeError "Cannot read properties of null (reading 'scene')")
  | some g =>
    match SceneManager.getScene g with
    | some _ => .ok (some (DebugForward.debugShowVictory scenario), [])
    | none => .ok (none, [ConsoleEntry.error "GameScene not found"])

/-- `window.debugGameOver`, main.js 98-105, on the instance it closes over. -/
def debugGameOver (self : StackRunnerGame) (arg : Option String) : DebugOutcome :=
  let scenario := scenarioOrDefault arg
  match self.game with
  | none => .error (JsError.typeError "Cannot read properties of null (reading 'scene')")
  | some g =>
    match SceneManager.getScene g with
    | some _ => .ok (some (DebugForward.debugShowGameOver scenario), [])
    | none => .ok (none, [ConsoleEntry.error "GameScene not found"])

/-- `setupDebugHelpers()`, main.js 87-114: install the two commands on `window`
and print their usage. -/
def setupDebugHelpers (p : Page) : Page :=
  { p with
    debugHelpers := true
    console := p.console ++
      [ ConsoleEntry.log "🎨 Debug helpers loaded! Use these commands:",
        ConsoleEntry.log "  debugVictory(\"player\")   - Show victory screen (player wins)",
        ConsoleEntry.log "  debugVictory(\"villain\")  - Show victory screen (villain wins)",
        ConsoleEntry.log "  debugVictory(\"draw\")     - Show victory screen (draw)",
        ConsoleEntry.log "  debugGameOver(\"player\")  - Show game over screen (player wins)",
        ConsoleEntry.log "  debugGameOver(\"villain\") - Show game over screen (villain wins)",
        ConsoleEntry.log "  debugGameOver(\"draw\")    - Show game over screen (draw)" ] }

/-! ## Boot (main.js 3-65) -/

/-- Result of booting: the page, the instance, and the requests sent to the
engine library; or the exception raised. -/
abbrev BootOutcome := Except JsError (Page × StackRunnerGame × List EngineCall)

/-- `init()`, main.js 8-65.  The canvas size is computed from the viewport as
in the source; the remaining entries of the engine configuration (scene list,
physics, scale bounds, render and input flags) are constants handed to the
engine library and are not recorded.  `this.game` is assigned without looking
at its previous value. -/
def init (cfg : Config) (p : Page) (_self : StackRunnerGame) : BootOutcome :=
  let isMobile := decide (p.innerWidth ≤ 768)
  let canvasWidth := if isMobile then p.innerWidth else cfg.CANVAS_WIDTH
  let canvasHeight := if isMobile then p.innerHeight else cfg.CANVAS_HEIGHT
  -- this.game = new Phaser.Game(config)
  let self1 : StackRunnerGame := { game := some (Engine.fresh p.engines) }
  let p1 := { p with engines := p.engines + 1 }
  -- window.phaserGame = this.game
  let p2 := { p1 with phaserGame := self1.game.map Engine.id }
  match setupErrorHandling self1 p2 with
  | .error e => .error e
  | .ok p3 =>
    let p4 := setupDebugHelpers p3
    let p5 := { p4 with console := p4.console ++ [ConsoleEntry.log "StackRunner initialized successfully"] }
    .ok (p5, self1, [EngineCall.construct canvasWidth canvasHeight])

/-- `constructor()`, main.js 3-6: `this.game = null; this.init()`. -/
def StackRunnerGame.new (cfg : Config) (p : Page) : BootOutcome :=
  init cfg p { game := none }

/-! ## Page listeners (main.js 170-221) -/

/-- Which of the global names resolve (`typeof X !== 'undefined'`). -/
structure Globals where
  Phaser : Bool
  StacksConnect : Bool
  CONFIG : Bool
  MazeGenerator : Bool
  CollisionSystem : Bool
  deriving DecidableEq, Repr

/-- The fallback markup written to `document.body` when the engine library is
missing. -/
def engineMissingHTML : String :=
  "<div style=\"text-align: center; color: white; padding: 50px;\">Error: Failed to load game engine. Please refresh the page.</div>"

/-- The `DOMContentLoaded` listener, main.js 171-211. -/
def onDOMContentLoaded (deps : Globals) (cfg : Config) (p : Page) :
    Except JsError (Page × List EngineCall) :=
  let p0 := { p with console := p.console ++ [ConsoleEntry.log "DOM loaded, initializing StackRunner..."] }
  if !deps.Phaser then
    .ok ({ p0 with
            console := p0.console ++ [ConsoleEntry.error "Phaser.js not loaded"]
            body := []
            bodyHTML := some engineMissingHTML }, [])
  else
    let p1 :=
      if !deps.StacksConnect then
        { p0 with console := p0.console ++
            [ConsoleEntry.warn "Stacks Connect not loaded - blockchain features will be disabled"] }
      else p0
    if !deps.CONFIG then
      .ok ({ p1 with console := p1.console ++ [ConsoleEntry.error "CONFIG not loaded"] }, [])
    else if !deps.MazeGenerator then
      .ok ({ p1 with console := p1.console ++ [ConsoleEntry.error "MazeGenerator not loaded"] }, [])
    else if !deps.CollisionSystem then
      .ok ({ p1 with console := p1.console ++ [ConsoleEntry.error "CollisionSystem not loaded"] }, [])
    else
      let p2 := { p1 with console := p1.console ++ [ConsoleEntry.log "All dependencies loaded successfully"] }
      match StackRunnerGame.new cfg p2 with
      | .error e => .error e
      | .ok (p3, sr, calls) =>
        let p4 := { p3 with stackRunner := some sr }
        let p5 :=
          match p4.instructions with
          | some html =>
            let extended := html ++ "<br>Press L for Leaderboard • Press S for Stats • Press P to Pause"
            { p4 with instructions := some extended }
          | none => p4
        .ok (p5, calls)

/-- The `visibilitychange` listener, main.js 214-221, for an event observed
with `document.hidden = hidden`. -/
def onVisibilityChange (hidden : Bool) (p : Page) : Except JsError (Page × List EngineCall) :=
  match p.stackRunner with
  | none => .ok (p, [])
  | some sr =>
    if hidden then
      match pauseGame sr with
      | .error e => .error e
      | .ok (sr1, calls) => .ok ({ p with stackRunner := some sr1 }, calls)
    else
      .ok (p, [])

/-- A sequence of `visibilitychange` events, each given by the value of
`document.hidden` it is observed with. -/
def runVisibility : List Bool → Page → Except JsError (Page × List EngineCall)
  | [], p => .ok (p, [])
  | hidden :: rest, p =>
    match onVisibilityChange hidden p with
    | .error e => .error e
    | .ok (p1, t1) =>
      match runVisibility rest p1 with
      | .error e => .error e
      | .ok (p2, t2) => .ok (p2, t1 ++ t2)

/-- The state of the primary scene of the installed shell (`none` when no
shell is installed or its handle is cleared). -/
def Page.sceneState (p : Page) : Option SceneState :=
  p.stackRunner.bind StackRunnerGame.sceneState

/-! ## Observations used in the statements -/

/-- The error diagnostics among console lines. -/
def errorEntries (c : List ConsoleEntry) : List String :=
  c.filterMap (fun e => match e with
    | ConsoleEntry.error m => some m
    | _ => none)

/-- The warnings among console lines. -/
def warnEntries (c : List ConsoleEntry) : List String :=
  c.filterMap (fun e => match e with
    | ConsoleEntry.warn m => some m
    | _ => none)

/-- The mandatory dependencies that are missing, in the order the listener
tests them. -/
def missingMandatory (deps : Globals) : List String :=
  (if deps.Phaser then [] else ["Phaser"]) ++
  (if deps.CONFIG then [] else ["CONFIG"]) ++
  (if deps.MazeGenerator then [] else ["MazeGenerator"]) ++
  (if deps.CollisionSystem then [] else ["CollisionSystem"])

/-- The diagnostic the listener prints for a missing mandatory dependency. -/
def missingMessage (name : String) : String :=
  if name = "Phaser" then "Phaser.js not loaded" else name ++ " not loaded"

/-- The error diagnostics on the console after a run of a page listener
(empty when the listener raised). -/
def reportedErrors (r : Except JsError (Page × List EngineCall)) : List String :=
  match r with
  | .ok (p, _) => errorEntries p.console
  | .error _ => []

/-- Booting a second time: the constructor, then `init()` once more on the
instance it produced. -/
def bootTwice (cfg : Config) (p : Page) : BootOutcome :=
  match StackRunnerGame.new cfg p with
  | .error e => .error e
  | .ok (p1, sr, t1) =>
    match init cfg p1 sr with
    | .error e => .error e
    | .ok (p2, sr2, t2) => .ok (p2, sr2, t1 ++ t2)

/-- The identity of the engine held in `this.game` after booting. -/
def BootOutcome.handle (r : BootOutcome) : Option Nat :=
  match r with
  | .ok (_, sr, _) => sr.game.map Engine.id
  | .error _ => none

/-- The identity of the engine published as `window.phaserGame` after booting. -/
def BootOutcome.published (r : BootOutcome) : Option Nat :=
  match r with
  | .ok (p, _, _) => p.phaserGame
  | .error _ => none

/-- The engines constructed while booting. -/
def BootOutcome.calls (r : BootOutcome) : List EngineCall :=
  match r with
  | .ok (_, _, t) => t
  | .error _ => []

/-- The texts of the banners on the page after one event on `ch` reaches a
booted page (empty when booting raised). -/
def bannersAfter (ch : Channel) (r : BootOutcome) : List String :=
  match r with
  | .ok (p, _, _) => (fire ch p).body.map Overlay.textContent
  | .error _ => []

/-- A desktop configuration used in the concrete examples. -/
def demoConfig : Config := { CANVAS_WIDTH := 800, CANVAS_HEIGHT := 600 }

/-- A desktop page, before any script ran, used in the concrete examples. -/
def demoPage : Page := Page.blank 1024 768 none

/-! ## Lifecycle controller -/

/-- C1: with a live engine handle, `pauseGame` returns normally for every scene
state; it moves the scene to `Paused` (sending `pause('GameScene')`) when the
scene is `Active`, and in every other state leaves the instance unchanged and
sends nothing. -/
theorem pauseGame_spec (id : Nat) (found : Bool) (st : SceneState) :
    pauseGame { game := some { id := id, scene := st, hasGameScene := found } } =
      .ok ({ game := some { id := id,
                            scene := if st = SceneState.Active then SceneState.Paused else st,
                            hasGameScene := found } },
           if st = SceneState.Active then [EngineCall.pause "GameScene"] else []) := by
  cases st <;> rfl

/-- C2: with a live engine handle, `resumeGame` returns normally for every scene
state; it moves the scene to `Active` (sending `resume('GameScene')`) when the
scene is `Paused`, and in every other state (`NotStarted`, `Active`) leaves the
instance unchanged and sends nothing. -/
theorem resumeGame_spec (id : Nat) (found : Bool) (st : SceneState) :
    resumeGame { game := some { id := id, scene := st, hasGameScene := found } } =
      .ok ({ game := some { id := id,
                            scene := if st = SceneState.Paused then SceneState.Active else st,
                            hasGameScene := found } },
           if st = SceneState.Paused then [EngineCall.resume "GameScene"] else []) := by
  cases st <;> rfl

/-- C3: with a live engine handle, `restartGame` sends `restart('GameScene')` to
the engine if and only if the scene is `Active`, and the scene is then `Active`
again; when the scene is `Paused` or `NotStarted` it sends nothing and leaves
the instance unchanged. -/
theorem restartGame_spec (id : Nat) (found : Bool) (st : SceneState) :
    (EngineCall.restart "GameScene" ∈
        (restartGame { game := some { id := id, scene := st, hasGameScene := found } }).calls
      ↔ st = SceneState.Active) ∧
    restartGame { game := some { id := id, scene := SceneState.Active, hasGameScene := found } } =
      .ok ({ game := some { id := id, scene := SceneState.Active, hasGameScene := found } },
           [EngineCall.restart "GameScene"]) ∧
    restartGame { game := some { id := id, scene := SceneState.Paused, hasGameScene := found } } =
      .ok ({ game := some { id := id, scene := SceneState.Paused, hasGameScene := found } }, []) ∧
    restartGame { game := some { id := id, scene := SceneState.NotStarted, hasGameScene := found } } =
      .ok ({ game := some { id := id, scene := SceneState.NotStarted, hasGameScene := found } }, []) := by
  refine ⟨?_, rfl, rfl, rfl⟩
  cases st <;> simp [restartGame, Outcome.calls, SceneManager.isActive, gameSceneKey]

/-- A lifecycle method called on an instance whose handle is cleared returns
normally, keeps the handle cleared and sends nothing to the engine. -/
theorem call_cleared (op : LifecycleOp) :
    op.call { game := none } = .ok ({ game := none }, []) := by
  cases op <;> rfl

/-- Any sequence of lifecycle calls on a cleared handle is inert. -/
theorem runOps_cleared (ops : List LifecycleOp) :
    runOps ops { game := none } = .ok ({ game := none }, []) := by
  induction ops with
  | nil => rfl
  | cons op rest ih => simp [runOps, call_cleared, ih]

/-- C4: `destroy` on an instance with a live handle sends `destroy(true)` to the
engine and clears the handle; every sequence of `pauseGame` / `resumeGame` /
`restartGame` / `destroy` calls made afterwards returns normally, sends nothing
to the engine, and leaves the handle cleared. -/
theorem destroy_then_inert (g : Engine) (ops : List LifecycleOp) :
    destroy { game := some g } = .ok ({ game := none }, [EngineCall.destroy true]) ∧
    runOps ops { game := none } = .ok ({ game := none }, []) ∧
    runOps (LifecycleOp.destroy :: ops) { game := some g } =
      .ok ({ game := none }, [EngineCall.destroy true]) := by
  refine ⟨rfl, runOps_cleared ops, ?_⟩
  have h : LifecycleOp.destroy.call { game := some g } =
      .ok ({ game := none }, [EngineCall.destroy true]) := rfl
  simp [runOps, h, runOps_cleared]

/-- Deleting the no-op calls of a sequence changes neither the final instance
nor the requests sent to the engine. -/
theorem runOps_dropNoOps (ops : List LifecycleOp) (s : StackRunnerGame) :
    runOps (dropNoOps ops s) s = runOps ops s := by
  induction ops generalizing s with
  | nil => rfl
  | cons op rest ih =>
    cases hc : op.call s with
    | error e => simp [dropNoOps, isNoOp, hc, runOps, stateAfter, Outcome.state]
    | ok r =>
      obtain ⟨s1, t1⟩ := r
      by_cases hn : s1 = s ∧ t1 = []
      · obtain ⟨h1, h2⟩ := hn
        subst h1 h2
        have hdrop : dropNoOps (op :: rest) s1 = dropNoOps rest s1 := by
          simp [dropNoOps, isNoOp, hc]
        rw [hdrop, ih s1]
        simp only [runOps, hc]
        cases runOps rest s1 with
        | error e => rfl
        | ok r2 => simp
      · have hdrop : dropNoOps (op :: rest) s = op :: dropNoOps rest s1 := by
          simp [dropNoOps, isNoOp, hc, hn, stateAfter, Outcome.state]
        rw [hdrop]
        simp only [runOps, hc, ih s1]

/-- C5: every lifecycle method is idempotent on the instance state: for every
instance (handle live or cleared, scene in any state) calling it twice ends in
the state calling it once ends in.  For every sequence of calls (in particular
of `pauseGame` / `resumeGame` calls) the outcome equals the outcome of the
sequence with the no-op calls deleted; from `Active`, `pause; pause; resume`
reduces to `pause; resume` and both end `Active`. -/
theorem lifecycle_idempotent :
    (∀ (op : LifecycleOp) (s : StackRunnerGame),
      ∃ s1, (runOps [op] s).state = some s1 ∧ (runOps [op, op] s).state = some s1) ∧
    (∀ (ops : List LifecycleOp) (s : StackRunnerGame),
      (runOps ops s).state = (runOps (dropNoOps ops s) s).state) ∧
    (∀ (id : Nat) (found : Bool),
      dropNoOps [LifecycleOp.pauseGame, LifecycleOp.pauseGame, LifecycleOp.resumeGame]
          { game := some { id := id, scene := SceneState.Active, hasGameScene := found } } =
        [LifecycleOp.pauseGame, LifecycleOp.resumeGame] ∧
      (runOps [LifecycleOp.pauseGame, LifecycleOp.pauseGame, LifecycleOp.resumeGame]
          { game := some { id := id, scene := SceneState.Active, hasGameScene := found } }).state =
        some { game := some { id := id, scene := SceneState.Active, hasGameScene := found } } ∧
      (runOps [LifecycleOp.pauseGame, LifecycleOp.resumeGame]
          { game := some { id := id, scene := SceneState.Active, hasGameScene := found } }).state =
        some { game := some { id := id, scene := SceneState.Active, hasGameScene := found } }) := by
  refine ⟨?_, ?_, ?_⟩
  · intro op s
    obtain ⟨g⟩ := s
    cases g with
    | none => exact ⟨{ game := none }, by cases op <;> rfl, by cases op <;> rfl⟩
    | some g =>
      obtain ⟨id, st, found⟩ := g
      cases op <;> cases st <;> exact ⟨_, rfl, rfl⟩
  · intro ops s
    rw [runOps_dropNoOps]
  · intro id found
    refine ⟨?_, rfl, rfl⟩
    simp [dropNoOps, isNoOp, LifecycleOp.call, pauseGame, resumeGame, stateAfter, Outcome.state,
      SceneManager.isActive, SceneManager.isPaused, SceneManager.pause, SceneManager.resume]

/-! ## Visibility watcher -/

/-- One `visibilitychange` event returns normally and either leaves the scene
state as it was or takes it from `Active` to `Paused`. -/
theorem onVisibilityChange_scene (hidden : Bool) (p : Page) :
    ∃ p1 t, onVisibilityChange hidden p = .ok (p1, t) ∧
      (p1.sceneState = p.sceneState ∨
        (p.sceneState = some SceneState.Active ∧ p1.sceneState = some SceneState.Paused)) := by
  cases hsr : p.stackRunner with
  | none => exact ⟨p, [], by simp [onVisibilityChange, hsr], Or.inl rfl⟩
  | some sr =>
    cases hidden with
    | false => exact ⟨p, [], by simp [onVisibilityChange, hsr], Or.inl rfl⟩
    | true =>
      obtain ⟨g⟩ := sr
      cases g with
      | none =>
        exact ⟨{ p with stackRunner := some { game := none } }, [],
          by simp [onVisibilityChange, hsr, pauseGame],
          Or.inl (by simp [Page.sceneState, hsr])⟩
      | some g =>
        obtain ⟨id, st, found⟩ := g
        cases st
        · exact ⟨{ p with stackRunner := some { game := some ⟨id, SceneState.NotStarted, found⟩ } },
            [], by simp [onVisibilityChange, hsr, pauseGame, SceneManager.isActive],
            Or.inl (by simp [Page.sceneState, hsr])⟩
        · exact ⟨{ p with stackRunner := some { game := some ⟨id, SceneState.Paused, found⟩ } },
            [EngineCall.pause gameSceneKey],
            by simp [onVisibilityChange, hsr, pauseGame, SceneManager.isActive,
              SceneManager.pause],
            Or.inr (by simp [Page.sceneState, hsr, StackRunnerGame.sceneState])⟩
        · exact ⟨{ p with stackRunner := some { game := some ⟨id, SceneState.Paused, found⟩ } },
            [], by simp [onVisibilityChange, hsr, pauseGame, SceneManager.isActive],
            Or.inl (by simp [Page.sceneState, hsr])⟩

/-- A sequence of `visibilitychange` events returns normally and either leaves
the scene state as it was or takes it from `Active` to `Paused`. -/
theorem runVisibility_scene (events : List Bool) (p : Page) :
    ∃ p1 t, runVisibility events p = .ok (p1, t) ∧
      (p1.sceneState = p.sceneState ∨
        (p.sceneState = some SceneState.Active ∧ p1.sceneState = some SceneState.Paused)) := by
  induction events generalizing p with
  | nil => exact ⟨p, [], rfl, Or.inl rfl⟩
  | cons hidden rest ih =>
    obtain ⟨p1, t1, h1, hs1⟩ := onVisibilityChange_scene hidden p
    obtain ⟨p2, t2, h2, hs2⟩ := ih p1
    refine ⟨p2, t1 ++ t2, by simp [runVisibility, h1, h2], ?_⟩
    rcases hs1 with e1 | ⟨a1, b1⟩
    · rcases hs2 with e2 | ⟨a2, b2⟩
      · exact Or.inl (e2.trans e1)
      · exact Or.inr ⟨e1 ▸ a2, b2⟩
    · rcases hs2 with e2 | ⟨a2, b2⟩
      · exact Or.inr ⟨a1, e2.trans b1⟩
      · rw [b1] at a2
        cases a2

/-- C6: visibility handling never resumes.  With a shell installed whose scene
is `Active`, an event with `document.hidden = true` pauses the scene; an event
with `document.hidden = false` changes nothing, whatever the state; and along
every sequence of visibility events a scene that is `Paused` stays `Paused`
(more generally the only change such a sequence can make is `Active` to
`Paused`). -/
theorem visibility_never_resumes :
    (∀ (p : Page) (id : Nat) (found : Bool),
      p.stackRunner =
          some { game := some { id := id, scene := SceneState.Active, hasGameScene := found } } →
      onVisibilityChange true p =
        .ok ({ p with stackRunner := some { game := some ⟨id, SceneState.Paused, found⟩ } },
             [EngineCall.pause "GameScene"])) ∧
    (∀ p : Page, onVisibilityChange false p = .ok (p, [])) ∧
    (∀ (events : List Bool) (p : Page), p.sceneState = some SceneState.Paused →
      ∃ p1 t, runVisibility events p = .ok (p1, t) ∧
        p1.sceneState = some SceneState.Paused) ∧
    (∀ (events : List Bool) (p : Page),
      ∃ p1 t, runVisibility events p = .ok (p1, t) ∧
        (p1.sceneState = p.sceneState ∨
          (p.sceneState = some SceneState.Active ∧
            p1.sceneState = some SceneState.Paused))) := by
  refine ⟨?_, ?_, ?_, runVisibility_scene⟩
  · intro p id found h
    simp [onVisibilityChange, h, pauseGame, SceneManager.isActive, SceneManager.pause,
      gameSceneKey]
  · intro p
    cases h : p.stackRunner <;> simp [onVisibilityChange, h]
  · intro events p hp
    obtain ⟨p1, t, h1, hs⟩ := runVisibility_scene events p
    refine ⟨p1, t, h1, ?_⟩
    rcases hs with e | ⟨a, _⟩
    · rw [e, hp]
    · rw [hp] at a
      cases a

/-- Witness for C6: an installed shell with an `Active` scene on the demo page. -/
theorem visibility_never_resumes_witness :
    onVisibilityChange true
        { demoPage with stackRunner := some { game := some ⟨0, SceneState.Active, true⟩ } } =
      .ok ({ demoPage with stackRunner := some { game := some ⟨0, SceneState.Paused, true⟩ } },
           [EngineCall.pause "GameScene"]) :=
  visibility_never_resumes.1 _ 0 true rfl

/-! ## Dependency verifier -/

/-- C7, as stated, fails: with `CONFIG` and `MazeGenerator` both missing, two
mandatory dependencies are missing but the listener prints one error
diagnostic (`CONFIG not loaded`) and returns. -/
theorem two_missing_one_report :
    (missingMandatory { Phaser := true, StacksConnect := true, CONFIG := false,
                        MazeGenerator := false, CollisionSystem := true }).length = 2 ∧
    reportedErrors
        (onDOMContentLoaded { Phaser := true, StacksConnect := true, CONFIG := false,
                              MazeGenerator := false, CollisionSystem := true }
          demoConfig demoPage) = ["CONFIG not loaded"] := by
  constructor <;> rfl

/-- C7, amended: whenever at least one mandatory dependency is missing, the
listener returns normally having printed exactly one new error diagnostic,
the one of the first missing name in the order Phaser, CONFIG, MazeGenerator,
CollisionSystem, and no engine is constructed (no call to the engine library,
`window.stackRunner` and `window.phaserGame` untouched).  When only the
optional `StacksConnect` is missing it prints one warning and no error, and
boot proceeds: one engine is constructed and the shell is installed. -/
theorem verify_reports_first_missing :
    (∀ (deps : Globals) (cfg : Config) (p : Page), missingMandatory deps ≠ [] →
      ∃ p1, onDOMContentLoaded deps cfg p = .ok (p1, []) ∧
        errorEntries p1.console =
          errorEntries p.console ++ ((missingMandatory deps).take 1).map missingMessage ∧
        p1.engines = p.engines ∧ p1.stackRunner = p.stackRunner ∧
        p1.phaserGame = p.phaserGame) ∧
    (∀ (cfg : Config) (p : Page),
      ∃ p1 w h,
        onDOMContentLoaded { Phaser := true, StacksConnect := false, CONFIG := true,
                             MazeGenerator := true, CollisionSystem := true } cfg p =
          .ok (p1, [EngineCall.construct w h]) ∧
        errorEntries p1.console = errorEntries p.console ∧
        warnEntries p1.console = warnEntries p.console ++
          ["Stacks Connect not loaded - blockchain features will be disabled"] ∧
        p1.stackRunner = some { game := some (Engine.fresh p.engines) } ∧
        p1.engines = p.engines + 1) := by
  constructor
  · intro deps cfg p hne
    obtain ⟨ph, sc, cf, mg, cs⟩ := deps
    cases ph <;> cases sc <;> cases cf <;> cases mg <;> cases cs <;>
      first
      | exact absurd rfl hne
      | simp [onDOMContentLoaded, missingMandatory, missingMessage, errorEntries,
          List.filterMap_append]
  · intro cfg p
    cases hi : p.instructions <;>
      simp [onDOMContentLoaded, StackRunnerGame.new, init, setupErrorHandling,
        setupDebugHelpers, errorEntries, warnEntries, List.filterMap_append, hi]

/-- Witness for C7 (amended): `MazeGenerator` and `CollisionSystem` missing on
the demo page. -/
theorem verify_reports_first_missing_witness :
    ∃ p1, onDOMContentLoaded { Phaser := true, StacksConnect := true, CONFIG := true,
                               MazeGenerator := false, CollisionSystem := false }
            demoConfig demoPage = .ok (p1, []) ∧
      errorEntries p1.console = errorEntries demoPage.console ++
        ((missingMandatory { Phaser := true, StacksConnect := true, CONFIG := true,
                             MazeGenerator := false, CollisionSystem := false }).take 1).map
          missingMessage ∧
      p1.engines = demoPage.engines ∧ p1.stackRunner = demoPage.stackRunner ∧
      p1.phaserGame = demoPage.phaserGame :=
  verify_reports_first_missing.1 _ demoConfig demoPage (by decide)

/-! ## Engine bootstrapper -/

/-- C8, as stated, fails: on the demo page the constructor boots engine 0, and
running `init()` again on that instance returns normally, constructs a second
engine, and replaces both `this.game` and `window.phaserGame` by engine 1. -/
theorem second_boot_replaces_handle :
    (StackRunnerGame.new demoConfig demoPage).handle = some 0 ∧
    (StackRunnerGame.new demoConfig demoPage).published = some 0 ∧
    (bootTwice demoConfig demoPage).handle = some 1 ∧
    (bootTwice demoConfig demoPage).published = some 1 ∧
    (bootTwice demoConfig demoPage).calls =
      [EngineCall.construct 800 600, EngineCall.construct 800 600] := by
  refine ⟨rfl, rfl, rfl, rfl, rfl⟩

/-- C8, amended: `init()` has no already-booted guard.  For every instance
whose handle is live (an engine constructed earlier on the page), running
`init()` again returns normally, constructs one new engine, and stores the new
handle in `this.game` and in `window.phaserGame`; the handle of the first boot
is replaced. -/
theorem init_again_replaces_handle (cfg : Config) (p : Page) (self : StackRunnerGame)
    (g : Engine) (hlive : self.game = some g) (hold : g.id < p.engines) :
    ∃ p1 self1 w h,
      init cfg p self = .ok (p1, self1, [EngineCall.construct w h]) ∧
      self1.game = some (Engine.fresh p.engines) ∧
      p1.phaserGame = some p.engines ∧
      p1.engines = p.engines + 1 ∧
      self1.game ≠ self.game ∧
      p1.phaserGame ≠ some g.id := by
  refine ⟨_, _, _, _, rfl, rfl, rfl, rfl, ?_, ?_⟩
  · rw [hlive]
    intro heq
    have hid : (Engine.fresh p.engines).id = g.id := by
      rw [Option.some.inj heq]
    simp [Engine.fresh] at hid
    omega
  · intro heq
    have hid : p.engines = g.id := Option.some.inj heq
    omega

/-- Witness for C8 (amended): the instance booted first on the demo page. -/
theorem init_again_replaces_handle_witness :
    ∃ p1 self1 w h,
      init demoConfig { demoPage with engines := 1, phaserGame := some 0 }
          { game := some (Engine.fresh 0) } = .ok (p1, self1, [EngineCall.construct w h]) ∧
      self1.game = some (Engine.fresh 1) ∧
      p1.phaserGame = some 1 ∧
      p1.engines = 1 + 1 ∧
      self1.game ≠ some (Engine.fresh 0) ∧
      p1.phaserGame ≠ some (Engine.fresh 0).id :=
  init_again_replaces_handle demoConfig { demoPage with engines := 1, phaserGame := some 0 }
    { game := some (Engine.fresh 0) } (Engine.fresh 0) rfl (by decide)

/-! ## Error interceptor -/

/-- C9, as stated, fails: after booting on the demo page, one window `'error'`
event shows one banner, and its text is not the text of the engine channel. -/
theorem window_error_text_differs :
    bannersAfter Channel.windowError (StackRunnerGame.new demoConfig demoPage) =
      ["An error occurred. Please refresh the page."] ∧
    bannersAfter (Channel.engineError 0) (StackRunnerGame.new demoConfig demoPage) =
      ["Game error occurred. Please refresh the page."] ∧
    bannersAfter Channel.windowError (StackRunnerGame.new demoConfig demoPage) ≠
      bannersAfter (Channel.engineError 0) (StackRunnerGame.new demoConfig demoPage) := by
  refine ⟨by decide, by decide, by decide⟩

/-- C9, amended: on a page booted once (no listeners before the constructor
ran), each of the three channels, firing once, makes exactly one
`showErrorMessage` call: exactly one banner is appended and one removal timer
of 5000 ms is scheduled.  The banner reads
"Game error occurred. Please refresh the page." for the engine `'error'` event,
"An error occurred. Please refresh the page." for the window `'error'` event,
and "Connection error. Please check your network." for `'unhandledrejection'`. -/
theorem each_channel_one_banner (cfg : Config) (p : Page) (hfresh : p.listeners = []) :
    ∃ p1 sr t, StackRunnerGame.new cfg p = .ok (p1, sr, t) ∧
      sr.game = some (Engine.fresh p.engines) ∧
      (fire (Channel.engineError p.engines) p1).body =
        p1.body ++ [{ id := p1.created,
                      textContent := "Game error occurred. Please refresh the page." }] ∧
      (fire Channel.windowError p1).body =
        p1.body ++ [{ id := p1.created,
                      textContent := "An error occurred. Please refresh the page." }] ∧
      (fire Channel.unhandledRejection p1).body =
        p1.body ++ [{ id := p1.created,
                      textContent := "Connection error. Please check your network." }] ∧
      (∀ ch ∈ [Channel.engineError p.engines, Channel.windowError, Channel.unhandledRejection],
        (fire ch p1).timers = p1.timers ++ [{ delay := 5000, target := p1.created }]) := by
  refine ⟨_, _, _, rfl, rfl, ?_, ?_, ?_, ?_⟩ <;>
    simp [fire, hfresh, setupDebugHelpers, errorListeners, Engine.fresh, Listener.handle,
      showErrorMessage]

/-- Witness for C9 (amended): the demo page. -/
theorem each_channel_one_banner_witness :
    ∃ p1 sr t, StackRunnerGame.new demoConfig demoPage = .ok (p1, sr, t) ∧
      sr.game = some (Engine.fresh demoPage.engines) ∧
      (fire (Channel.engineError demoPage.engines) p1).body =
        p1.body ++ [{ id := p1.created,
                      textContent := "Game error occurred. Please refresh the page." }] ∧
      (fire Channel.windowError p1).body =
        p1.body ++ [{ id := p1.created,
                      textContent := "An error occurred. Please refresh the page." }] ∧
      (fire Channel.unhandledRejection p1).body =
        p1.body ++ [{ id := p1.created,
                      textContent := "Connection error. Please check your network." }] ∧
      (∀ ch ∈ [Channel.engineError demoPage.engines, Channel.windowError,
               Channel.unhandledRejection],
        (fire ch p1).timers = p1.timers ++ [{ delay := 5000, target := p1.created }]) :=
  each_channel_one_banner demoConfig demoPage rfl

/-! ## Debug command surface -/

/-- C10, as stated, fails: with a live engine whose gameplay scene resolves,
`debugVictory("foo")` and `debugGameOver("foo")` forward the unrecognized
string `"foo"` itself, not `"player"`. -/
theorem unrecognized_scenario_forwarded :
    debugVictory { game := some (Engine.fresh 0) } (some "foo") =
      .ok (some (DebugForward.debugShowVictory "foo"), []) ∧
    debugGameOver { game := some (Engine.fresh 0) } (some "foo") =
      .ok (some (DebugForward.debugShowGameOver "foo"), []) ∧
    DebugForward.debugShowVictory "foo" ≠ DebugForward.debugShowVictory "player" := by
  refine ⟨rfl, rfl, by decide⟩

/-- C10, amended: with a live engine handle, `debugVictory` and `debugGameOver`
return normally for every argument.  When the gameplay scene resolves they
forward the argument itself whenever one is given (recognized or not) and
`"player"` when it is omitted; when the scene does not resolve they print the
diagnostic `GameScene not found` and forward nothing. -/
theorem debug_commands_forward (g : Engine) (arg : Option String) :
    debugVictory { game := some g } arg =
      (if g.hasGameScene then .ok (some (DebugForward.debugShowVictory (arg.getD "player")), [])
       else .ok (none, [ConsoleEntry.error "GameScene not found"])) ∧
    debugGameOver { game := some g } arg =
      (if g.hasGameScene then .ok (some (DebugForward.debugShowGameOver (arg.getD "player")), [])
       else .ok (none, [ConsoleEntry.error "GameScene not found"])) := by
  obtain ⟨id, st, found⟩ := g
  cases found <;> cases arg <;> exact ⟨rfl, rfl⟩

/-- After `destroy()` the handle is cleared, and the debug commands, which read
`this.game.scene` without a guard, raise a `TypeError`. -/
theorem debug_commands_after_destroy (arg : Option String) :
    debugVictory { game := none } arg =
      .error (JsError.typeError "Cannot read properties of null (reading 'scene')") ∧
    debugGameOver { game := none } arg =
      .error (JsError.typeError "Cannot read properties of null (reading 'scene')") :=
  ⟨rfl, rfl⟩

end StacksRunner
